import Mathlib

/-!
Verification development for the linuxforhealth x12 sources:
support.py, models.py and v5010/x12_837_005010X222A2/parsing.py.

The parsing handlers in parsing.py mutate a JSON-like tree of Python
dicts and lists through aliased references (the parser context keeps
pointers such as subscriber_record and patient_record into the
transaction tree).  The embedding models the tree as an inductive value
and the context pointers as paths into that tree; two context pointers
alias the same mutable node exactly when they are the same path.  The
handlers become Option-valued functions (a Python exception is modelled
as none).
-/

namespace LFHX12

/-- JSON-like value: a Python str, list or dict as used by the 837
transaction tree in parsing.py.  Segment scalars other than strings do
not occur in the code paths modelled here. -/
inductive Val where
  | str (s : String)
  | vlist (items : List Val)
  | obj (entries : List (String × Val))

/-- One step of a reference path into the transaction tree: a dict key
or a list index. -/
inductive Step where
  | field (key : String)
  | idx (i : Nat)
deriving DecidableEq

/-- A reference into the transaction tree (models a Python reference to
a nested dict or list). -/
abbrev JPath := List Step

/-- Reads a dict key (Python d[k] for reading; none models KeyError or a
non-dict receiver). -/
def objGet : Val → String → Option Val
  | .obj entries, k => entries.lookup k
  | _, _ => none

/-- Python membership test k in d for a dict receiver. -/
def objHasKey : Val → String → Option Bool
  | .obj entries, k => some (entries.any (fun e => e.1 == k))
  | _, _ => none

/-- Dereferences a path. -/
def getPath : Val → JPath → Option Val
  | v, [] => some v
  | v, .field k :: p =>
    match objGet v k with
    | some w => getPath w p
    | none => none
  | v, .idx i :: p =>
    match v with
    | .vlist items =>
      match items[i]? with
      | some w => getPath w p
      | none => none
    | _ => none

/-- Python dict assignment d[k] = x on an association list: replaces the
first binding of k in place, otherwise appends a new binding (insertion
order is preserved, as for Python dicts). -/
def dictSet : List (String × Val) → String → Val → List (String × Val)
  | [], k, x => [(k, x)]
  | (a, b) :: t, k, x => if a = k then (a, x) :: t else (a, b) :: dictSet t k x

/-- Python d[k] = x for a dict node (none models a non-dict receiver). -/
def setKey (k : String) (x : Val) : Val → Option Val
  | .obj entries => some (.obj (dictSet entries k x))
  | _ => none

/-- Python l.append(x) for a list node. -/
def appendItem (x : Val) : Val → Option Val
  | .vlist items => some (.vlist (items ++ [x]))
  | _ => none

/-- In-place update of the node referenced by a path: applies f to the
referenced node and rebuilds the tree (the functional rendering of a
mutation through a Python reference). -/
def modifyAt : Val → JPath → (Val → Option Val) → Option Val
  | v, [], f => f v
  | v, .field k :: p, f =>
    match v with
    | .obj entries =>
      match entries.lookup k with
      | some w =>
        match modifyAt w p f with
        | some w2 => some (.obj (dictSet entries k w2))
        | none => none
      | none => none
    | _ => none
  | v, .idx i :: p, f =>
    match v with
    | .vlist items =>
      match items[i]? with
      | some w =>
        match modifyAt w p f with
        | some w2 => some (.vlist (items.set i w2))
        | none => none
      | none => none
    | _ => none

/-- Builds the path to lst[-1] for the list stored under key k of the
node at p (none models IndexError on an empty list, KeyError, or a
non-list value). -/
def lastElemPath (root : Val) (p : JPath) (k : String) : Option JPath :=
  match getPath root (p ++ [.field k]) with
  | some (.vlist items) =>
    if items.isEmpty then none else some (p ++ [.field k, .idx (items.length - 1)])
  | _ => none

/-- Python substring containment: needle in hay. -/
def containsSub (hay needle : String) : Bool :=
  (List.range (hay.data.length + 1)).any (fun i => needle.data.isPrefixOf (hay.data.drop i))

theorem lookup_dictSet (entries : List (String × Val)) (k : String) (x : Val) :
    (dictSet entries k x).lookup k = some x := by
  induction entries with
  | nil => simp [dictSet, List.lookup_cons]
  | cons e t ih =>
    obtain ⟨a, b⟩ := e
    by_cases hak : a = k
    · subst hak
      simp [dictSet, List.lookup_cons]
    · simp only [dictSet, if_neg hak]
      rw [List.lookup_cons]
      have : (k == a) = false := by
        simp [beq_iff_eq]
        exact fun h => hak h.symm
      simp [this, ih]

theorem getPath_append (p q : JPath) : ∀ root : Val,
    getPath root (p ++ q) = (getPath root p).bind (fun v => getPath v q) := by
  induction p with
  | nil => intro root; simp [getPath]
  | cons s p ih =>
    intro root
    cases s with
    | field k =>
      simp only [List.cons_append, getPath]
      cases objGet root k with
      | none => simp
      | some w => simpa using ih w
    | idx i =>
      cases root with
      | vlist items =>
        simp only [List.cons_append, getPath]
        cases items[i]? with
        | none => simp
        | some w => simpa using ih w
      | str s => simp [getPath]
      | obj entries => simp [getPath]

theorem modifyAt_spec (p : JPath) : ∀ (root root' : Val) (f : Val → Option Val),
    modifyAt root p f = some root' →
    ∃ v w, getPath root p = some v ∧ f v = some w ∧ getPath root' p = some w := by
  induction p with
  | nil =>
    intro root root' f h
    exact ⟨root, root', rfl, h, rfl⟩
  | cons s p ih =>
    intro root root' f h
    cases s with
    | field k =>
      cases root with
      | str s0 => simp [modifyAt] at h
      | vlist items => simp [modifyAt] at h
      | obj entries =>
        simp only [modifyAt] at h
        cases hl : entries.lookup k with
        | none => simp [hl] at h
        | some w0 =>
          cases hm : modifyAt w0 p f with
          | none => simp [hl, hm] at h
          | some w0' =>
            simp only [hl, hm, Option.some.injEq] at h
            obtain ⟨v, w, hv, hw, hv'⟩ := ih w0 w0' f hm
            refine ⟨v, w, ?_, hw, ?_⟩
            · simp [getPath, objGet, hl, hv]
            · rw [← h]
              simp [getPath, objGet, lookup_dictSet, hv']
    | idx i =>
      cases root with
      | str s0 => simp [modifyAt] at h
      | obj entries => simp [modifyAt] at h
      | vlist items =>
        simp only [modifyAt] at h
        cases hl : items[i]? with
        | none => simp [hl] at h
        | some w0 =>
          cases hm : modifyAt w0 p f with
          | none => simp [hl, hm] at h
          | some w0' =>
            simp only [hl, hm, Option.some.injEq] at h
            obtain ⟨v, w, hv, hw, hv'⟩ := ih w0 w0' f hm
            have hlen : i < items.length := by
              rcases List.getElem?_eq_some.mp hl with ⟨hle, _⟩
              exact hle
            refine ⟨v, w, ?_, hw, ?_⟩
            · simp [getPath, hl, hv]
            · rw [← h]
              simp [getPath, List.getElem?_set_self hlen, hv']

/-!
Model of src/src/linuxforhealth/x12/support.py.
-/

/-- The static version alias table X12_IMPLEMENTATION_VERSIONS of
support.py, in source order. -/
def X12_IMPLEMENTATION_VERSIONS : List (String × String) :=
  [("005010X220", "005010X220A1"),
   ("005010X220A1", "005010X220A1"),
   ("005010X212", "005010X212"),
   ("005010X221", "005010X221A1"),
   ("005010X221A1", "005010X221A1"),
   ("005010X279", "005010X279A1"),
   ("005010X279A1", "005010X279A1"),
   ("004010X096", "004010X096A1"),
   ("004010X096A1", "004010X096A1"),
   ("005010X223", "005010X223A3"),
   ("005010X223A1", "005010X223A3"),
   ("005010X223A2", "005010X223A3"),
   ("005010X223A3", "005010X223A3"),
   ("004010X098", "004010X098A1"),
   ("004010X098A1", "004010X098A1"),
   ("005010X222", "005010X222A2"),
   ("005010X222A1", "005010X222A2"),
   ("005010X222A2", "005010X222A2")]

/-- support.get_latest_implementation_version: table lookup; the raised
KeyError for an unsupported version is modelled as none. -/
def get_latest_implementation_version (requested_version : String) : Option String :=
  X12_IMPLEMENTATION_VERSIONS.lookup requested_version

/-- support.is_x12_data: a None argument is modelled as none.  The
source returns input_data.startswith("ISA") when input_data is truthy
and False otherwise (None and the empty string are falsy). -/
def is_x12_data (input_data : Option String) : Bool :=
  match input_data with
  | none => false
  | some s => if s = "" then false else "ISA".data.isPrefixOf s.data

/-- The first three characters of s once leading whitespace is skipped;
this renders the spec's phrase "the first three non-whitespace
characters" for comparison against is_x12_data. -/
def firstThreeNonWhitespace (s : String) : List Char :=
  (s.data.dropWhile Char.isWhitespace).take 3

/-- The character class matched by the \d pattern that strptime compiles
digit directives to. -/
def isDig (c : Char) : Bool := 48 ≤ c.toNat && c.toNat ≤ 57

/-- Numeric value of a digit character. -/
def digitVal (c : Char) : Nat := c.toNat - 48

/-- Gregorian leap-year test, as used by Python's datetime validation. -/
def isLeapYear (y : Nat) : Bool := y % 4 = 0 && (y % 100 ≠ 0 || y % 400 = 0)

/-- Days in a month, as used by Python's datetime validation. -/
def daysInMonth (y m : Nat) : Nat :=
  if m = 2 then (if isLeapYear y then 29 else 28)
  else if m = 4 ∨ m = 6 ∨ m = 9 ∨ m = 11 then 30
  else 31

/-- support.parse_interchange_date: datetime.strptime(date_string,
"%y%m%d").date().  For a six-character input the match is the 2+2+2
digit split; %y resolves two-digit years 00-68 to 2000-2068 and 69-99
to 1969-1999 (the POSIX rule CPython implements); an invalid date
raises ValueError, modelled as none.  CPython's regex backtracking also
accepts some five-character strings; those inputs are outside the
six-character YYMMDD shape the spec discusses and are not modelled. -/
def parse_interchange_date (s : String) : Option (Nat × Nat × Nat) :=
  match s.data with
  | [y1, y2, m1, m2, d1, d2] =>
    if isDig y1 && isDig y2 && isDig m1 && isDig m2 && isDig d1 && isDig d2 then
      let yy := digitVal y1 * 10 + digitVal y2
      let year := if yy ≤ 68 then 2000 + yy else 1900 + yy
      let month := digitVal m1 * 10 + digitVal m2
      let day := digitVal d1 * 10 + digitVal d2
      if 1 ≤ month && month ≤ 12 && 1 ≤ day && day ≤ daysInMonth year month then
        some (year, month, day)
      else none
    else none
  | _ => none

/-- strptime "%Y%m%d" on an eight-character string: the 4+2+2 digit
split with calendar validation. -/
def parseYmd8 (cs : List Char) : Option (Nat × Nat × Nat) :=
  match cs with
  | [a, b, c, d, e, f, g, h] =>
    if isDig a && isDig b && isDig c && isDig d && isDig e && isDig f && isDig g && isDig h then
      let year := digitVal a * 1000 + digitVal b * 100 + digitVal c * 10 + digitVal d
      let month := digitVal e * 10 + digitVal f
      let day := digitVal g * 10 + digitVal h
      if 1 ≤ month && month ≤ 12 && 1 ≤ day && day ≤ daysInMonth year month then
        some (year, month, day)
      else none
    else none
  | _ => none

/-- strptime "%Y%m%d%H%M" on a twelve-character string. -/
def parseYmdHm12 (cs : List Char) : Option (Nat × Nat × Nat × Nat × Nat) :=
  match cs with
  | [a, b, c, d, e, f, g, h, i, j, k, l] =>
    match parseYmd8 [a, b, c, d, e, f, g, h] with
    | some (year, month, day) =>
      if isDig i && isDig j && isDig k && isDig l then
        let hour := digitVal i * 10 + digitVal j
        let minute := digitVal k * 10 + digitVal l
        if hour ≤ 23 && minute ≤ 59 then some (year, month, day, hour, minute) else none
      else none
    | none => none
  | _ => none

/-- Result of support.parse_x12_date: None, a date, a datetime, or the
input returned unchanged as a time string. -/
inductive X12DateValue where
  | nullValue
  | dateValue (y m d : Nat)
  | datetimeValue (y mo d h mi : Nat)
  | timeString (s : String)
deriving DecidableEq

/-- support.parse_x12_date.  A raised ValueError (strptime on malformed
content of length 8 or 12) is modelled as Except.error; every returned
value is Except.ok. -/
def parse_x12_date (date_string : Option String) : Except Unit X12DateValue :=
  match date_string with
  | none => .ok .nullValue
  | some s =>
    if s = "" then .ok .nullValue
    else if s.length = 8 then
      match parseYmd8 s.data with
      | some (y, m, d) => .ok (.dateValue y m d)
      | none => .error ()
    else if s.length = 12 then
      match parseYmdHm12 s.data with
      | some (y, mo, d, h, mi) => .ok (.datetimeValue y mo d h mi)
      | none => .error ()
    else if s.length = 4 ∨ s.length = 6 then .ok (.timeString s)
    else .ok .nullValue

/-- Every alias-table value is itself a key that maps to itself. -/
theorem alias_table_values_fixed :
    ∀ p ∈ X12_IMPLEMENTATION_VERSIONS,
      X12_IMPLEMENTATION_VERSIONS.lookup p.2 = some p.2 := by decide

/-- A successful association-list lookup returns a listed pair. -/
theorem lookup_eq_some_mem {l : List (String × String)} {k v : String}
    (h : l.lookup k = some v) : (k, v) ∈ l := by
  induction l with
  | nil => simp at h
  | cons e t ih =>
    obtain ⟨a, b⟩ := e
    rw [List.lookup_cons] at h
    cases hb : (k == a) with
    | true =>
      rw [hb] at h
      simp only [Option.some.injEq] at h
      subst h
      have : k = a := by simpa [beq_iff_eq] using hb
      subst this
      exact List.mem_cons_self _ _
    | false =>
      rw [hb] at h
      exact List.mem_cons_of_mem _ (ih h)

/-- Claim C8: version canonicalization through
get_latest_implementation_version is idempotent on every supported
version, and "005010X221" canonicalizes to "005010X221A1". -/
theorem get_latest_implementation_version_idempotent :
    (∀ v w : String, get_latest_implementation_version v = some w →
      get_latest_implementation_version w = some w)
    ∧ get_latest_implementation_version "005010X221" = some "005010X221A1" := by
  constructor
  · intro v w h
    exact alias_table_values_fixed (v, w) (lookup_eq_some_mem h)
  · decide

/-- Witness for C8 at the concrete version "005010X221". -/
theorem get_latest_implementation_version_idempotent_witness :
    get_latest_implementation_version "005010X221A1" = some "005010X221A1" :=
  get_latest_implementation_version_idempotent.1 "005010X221" "005010X221A1" (by decide)

/-- A three-character prefix test is the same as comparing the first
three characters. -/
theorem isa_prefix_iff (l : List Char) :
    (['I', 'S', 'A'].isPrefixOf l) = true ↔ l.take 3 = ['I', 'S', 'A'] := by
  match l with
  | [] => simp [List.isPrefixOf]
  | [a] => simp [List.isPrefixOf]
  | [a, b] => simp [List.isPrefixOf]
  | a :: b :: c :: rest =>
    simp only [List.isPrefixOf, Bool.and_eq_true, beq_iff_eq, List.take]
    constructor
    · rintro ⟨rfl, rfl, rfl, -⟩; rfl
    · intro h
      simp only [List.cons.injEq] at h
      obtain ⟨rfl, rfl, rfl, -⟩ := h
      exact ⟨rfl, rfl, rfl, trivial⟩

/-- Counterexample to claim C6 as stated: the input " ISA*00" has "ISA"
as its first three non-whitespace characters, yet is_x12_data returns
False because the source tests a literal startswith prefix. -/
theorem is_x12_data_leading_whitespace_counterexample :
    firstThreeNonWhitespace " ISA*00" = ['I', 'S', 'A']
    ∧ is_x12_data (some " ISA*00") = false := by
  exact ⟨by decide, by decide⟩

/-- Claim C6 (amended): is_x12_data returns True iff the input is
present and literally begins with "ISA" (no whitespace is skipped); a
None or empty input yields False. -/
theorem is_x12_data_literal_prefix :
    (∀ s : String, is_x12_data (some s) = true ↔ s.data.take 3 = ['I', 'S', 'A'])
    ∧ is_x12_data none = false := by
  refine ⟨?_, rfl⟩
  intro s
  show (if s = "" then false else "ISA".data.isPrefixOf s.data) = true ↔ _
  by_cases hs : s = ""
  · subst hs
    simp only [if_pos rfl]
    constructor
    · intro h; exact absurd h (by decide)
    · intro h; exact absurd h (by decide)
  · rw [if_neg hs]
    exact isa_prefix_iff s.data

/-- Counterexample to claim C7 as stated: the six-character interchange
date "500101" resolves to the year 2050, not 1950, because strptime's
%y pivot is 69, not 50. -/
theorem parse_interchange_date_pivot_counterexample :
    parse_interchange_date "500101" = some (2050, 1, 1)
    ∧ parse_interchange_date "500101" ≠ some (1950, 1, 1) := by
  exact ⟨by decide, by decide⟩

/-- Claim C7 (amended): parse_interchange_date resolves two-digit years
with the POSIX pivot 69: every accepted date lies in 1969-2068, the
century is 20xx exactly when the two-digit year is at most 68, and in
particular "490101" parses to 2049 while "690101" parses to 1969. -/
theorem parse_interchange_date_century_pivot :
    (∀ (s : String) (y m d : Nat), parse_interchange_date s = some (y, m, d) →
      1969 ≤ y ∧ y ≤ 2068 ∧ (2000 ≤ y ↔ y % 100 ≤ 68))
    ∧ parse_interchange_date "490101" = some (2049, 1, 1)
    ∧ parse_interchange_date "690101" = some (1969, 1, 1) := by
  refine ⟨?_, by decide, by decide⟩
  intro s y m d h
  unfold parse_interchange_date at h
  split at h
  case _ y1 y2 m1 m2 d1 d2 heq =>
    by_cases hdig : (isDig y1 && isDig y2 && isDig m1 && isDig m2 && isDig d1 && isDig d2) = true
    · rw [if_pos hdig] at h
      simp only at h
      split_ifs at h with hval <;>
        (simp only [Option.some.injEq, Prod.mk.injEq] at h
         obtain ⟨hy, -, -⟩ := h
         simp only [isDig, Bool.and_eq_true, decide_eq_true_eq] at hdig
         simp only [digitVal] at hy hval
         rw [← hy]
         omega)
    · rw [if_neg hdig] at h
      exact absurd h (by simp)
  case _ => exact absurd h (by simp)

/-- Witness for C7's amended theorem at the concrete input "490101". -/
theorem parse_interchange_date_century_pivot_witness :
    1969 ≤ 2049 ∧ 2049 ≤ 2068 ∧ (2000 ≤ 2049 ↔ 2049 % 100 ≤ 68) :=
  parse_interchange_date_century_pivot.1 "490101" 2049 1 1 (by decide)

/-- Claim C9: parse_x12_date never raises on ill-sized input: None and
the empty string give None, any length outside 4, 6, 8 and 12 gives
None, and lengths 4 and 6 return the input unchanged as a time
string. -/
theorem parse_x12_date_ill_sized_behavior :
    parse_x12_date none = .ok .nullValue
    ∧ parse_x12_date (some "") = .ok .nullValue
    ∧ (∀ s : String, s.length ∉ ([4, 6, 8, 12] : List Nat) →
        parse_x12_date (some s) = .ok .nullValue)
    ∧ (∀ s : String, s.length = 4 ∨ s.length = 6 →
        parse_x12_date (some s) = .ok (.timeString s)) := by
  refine ⟨rfl, rfl, ?_, ?_⟩
  · intro s hs
    simp only [List.mem_cons, List.not_mem_nil, or_false, not_or] at hs
    obtain ⟨h4, h6, h8, h12⟩ := hs
    by_cases hemp : s = ""
    · subst hemp; rfl
    · show (if s = "" then _ else _) = _
      rw [if_neg hemp, if_neg h8, if_neg h12, if_neg (by tauto)]
  · intro s hs
    have hemp : ¬s = "" := by
      intro he; subst he; exact absurd hs (by decide)
    have h8 : ¬s.length = 8 := by rcases hs with h | h <;> omega
    have h12 : ¬s.length = 12 := by rcases hs with h | h <;> omega
    show (if s = "" then _ else _) = _
    rw [if_neg hemp, if_neg h8, if_neg h12, if_pos hs]

/-- Witness for C9 at a length-3 and a length-4 input. -/
theorem parse_x12_date_ill_sized_behavior_witness :
    parse_x12_date (some "abc") = .ok .nullValue
    ∧ parse_x12_date (some "1230") = .ok (.timeString "1230") :=
  ⟨parse_x12_date_ill_sized_behavior.2.2.1 "abc" (by decide),
   parse_x12_date_ill_sized_behavior.2.2.2 "1230" (Or.inl (by decide))⟩

/-!
Model of src/src/linuxforhealth/x12/models.py (X12Delimiters and
X12Segment.x12 serialization).
-/

/-- models.X12Delimiters; each delimiter is a single character
(min_length = max_length = 1 in the source). -/
structure X12Delimiters where
  element_separator : Char
  repetition_separator : Char
  segment_terminator : Char
  component_separator : Char
deriving DecidableEq

/-- The default delimiter values of models.X12Delimiters(). -/
def defaultDelimiters : X12Delimiters :=
  { element_separator := '*', repetition_separator := '^',
    segment_terminator := '~', component_separator := ':' }

/-- One field value as produced by self.dict() in X12Segment.x12: a
string, a list of strings, a datetime, a date, a time, a Decimal, or
None.  Ints and other types fall to the str(v) branch, modelled by the
rendering str(v) produces. -/
inductive FieldVal where
  | vstr (s : String)
  | vlist (items : List String)
  | vdatetime (y mo d h mi : Nat)
  | vdate (y mo d : Nat)
  | vtime (h mi : Nat)
  | vdecimal (cents : Int)
  | vnone
  | vother (rendered : String)
deriving DecidableEq

/-- One declared pydantic field of a segment model: its name, its value
and the is_component flag that _process_multivalue_field reads from the
field metadata extras. -/
structure X12SegmentField where
  name : String
  value : FieldVal
  is_component : Bool
deriving DecidableEq

/-- A segment model instance: the optional delimiters attribute plus
the remaining declared fields in declaration order (self.dict with
exclude={"delimiters"} iterates exactly those, so the delimiters
attribute is kept separate here). -/
structure X12SegmentModel where
  delimiters : Option X12Delimiters
  fields : List X12SegmentField
deriving DecidableEq

/-- Decimal digits left-padded with zeros to the requested width (the
strftime %Y/%m/%d/%H/%M renderings). -/
def padNum (width n : Nat) : String :=
  String.mk (List.replicate (width - (toString n).length) '0') ++ toString n

/-- The "{:.2f}" rendering of a Decimal, modelled on an integer number
of hundredths. -/
def formatCents (c : Int) : String :=
  (if c < 0 then "-" else "") ++ toString (c.natAbs / 100) ++ "." ++ padNum 2 (c.natAbs % 100)

/-- models.X12Segment._process_multivalue_field: joins a list field with
the component separator when the field metadata marks it as a component
field, otherwise with the repetition separator; when no custom
delimiters are supplied the DEFAULT delimiters are used. -/
def _process_multivalue_field (is_component : Bool) (field_value : List String)
    (custom_delimiters : Option X12Delimiters) : String :=
  let delimiters := custom_delimiters.getD defaultDelimiters
  let join_character :=
    if is_component then delimiters.component_separator else delimiters.repetition_separator
  String.intercalate (String.singleton join_character) field_value

/-- Rendering of one field value inside X12Segment.x12's loop over
self.dict(exclude={"delimiters"}). -/
def renderFieldValue (delimiters : X12Delimiters) (f : X12SegmentField) : String :=
  match f.value with
  | .vstr s => s
  | .vlist items => _process_multivalue_field f.is_component items (some delimiters)
  | .vdatetime y mo d h mi => padNum 4 y ++ padNum 2 mo ++ padNum 2 d ++ padNum 2 h ++ padNum 2 mi
  | .vdate y mo d => padNum 4 y ++ padNum 2 mo ++ padNum 2 d
  | .vtime h mi => padNum 2 h ++ padNum 2 mi
  | .vdecimal c => formatCents c
  | .vnone => ""
  | .vother s => s

/-- Python str.rstrip with a single-character argument: removes every
trailing occurrence of that character. -/
def rstripChar (s : String) (c : Char) : String :=
  String.mk ((s.data.reverse.dropWhile (fun x => x = c)).reverse)

/-- models.X12Segment.x12: joins the rendered field values with the
element separator, strips trailing element separators, and appends the
segment terminator.  The delimiters come from custom_delimiters or
X12Delimiters() — the instance's own delimiters attribute is excluded
from self.dict and never consulted. -/
def X12SegmentModel.x12 (self : X12SegmentModel)
    (custom_delimiters : Option X12Delimiters) : String :=
  let delimiters := custom_delimiters.getD defaultDelimiters
  let x12_values := self.fields.map (renderFieldValue delimiters)
  let x12_str :=
    rstripChar (String.intercalate (String.singleton delimiters.element_separator) x12_values)
      delimiters.element_separator
  x12_str ++ String.singleton delimiters.segment_terminator

/-- Follows the spec's words for claim C5: serialize the segment "using
the delimiters the segment carries". -/
def x12WithCarriedDelimiters (self : X12SegmentModel) : String :=
  self.x12 (some (self.delimiters.getD defaultDelimiters))

/-- A segment carrying non-default delimiters. -/
def segCarryingDelimiters : X12SegmentModel :=
  { delimiters := some { element_separator := '|', repetition_separator := '>',
                         segment_terminator := '#', component_separator := '%' },
    fields := [{ name := "segment_name", value := .vstr "NM1", is_component := false },
               { name := "codes", value := .vlist ["a", "b"], is_component := false }] }

/-- Counterexample to claim C5 as stated: a segment whose delimiters
field carries element separator , repetition separator and terminator
different from the defaults still serializes with the default
delimiters when x12() gets no custom_delimiters argument. -/
theorem x12_default_delimiters_counterexample :
    segCarryingDelimiters.delimiters =
      some { element_separator := '|', repetition_separator := '>',
             segment_terminator := '#', component_separator := '%' }
    ∧ segCarryingDelimiters.x12 none = "NM1*a^b~"
    ∧ x12WithCarriedDelimiters segCarryingDelimiters = "NM1|a>b#"
    ∧ segCarryingDelimiters.x12 none ≠ x12WithCarriedDelimiters segCarryingDelimiters := by
  exact ⟨rfl, rfl, rfl, by decide⟩

/-- Claim C5 (amended): x12() with no custom_delimiters serializes with
the DEFAULT delimiters, independently of the delimiters the segment
carries: changing the carried delimiters does not change the output,
and the output equals serialization with the defaults. -/
theorem x12_serialization_ignores_carried_delimiters
    (seg : X12SegmentModel) (d : Option X12Delimiters) :
    X12SegmentModel.x12 { seg with delimiters := d } none = seg.x12 none
    ∧ seg.x12 none = seg.x12 (some defaultDelimiters) := by
  exact ⟨rfl, rfl⟩

/-!
Model of src/src/linuxforhealth/x12/v5010/x12_837_005010X222A2/parsing.py.

TransactionLoops is a str Enum, so its members are used directly as
dict keys and compare equal to their string values; the members are
modelled as the string constants below.
-/

namespace TransactionLoops

def HEADER : String := "header"
def SUBMITTER_NAME : String := "loop_1000a"
def RECEIVER_NAME : String := "loop_1000b"
def BILLING_PROVIDER : String := "loop_2000a"
def BILLING_PROVIDER_NAME : String := "loop_2010aa"
def BILLING_PROVIDER_PAY_TO_ADDRESS : String := "loop_2010ab"
def BILLING_PROVIDER_PAY_TO_PLAN_NAME : String := "loop_2010ac"
def SUBSCRIBER : String := "loop_2000b"
def SUBSCRIBER_NAME : String := "loop_2010ba"
def SUBSCRIBER_PAYER_NAME : String := "loop_2010bb"
def PATIENT_LOOP : String := "loop_2000c"
def PATIENT_LOOP_NAME : String := "loop_2010ca"
def CLAIM_INFORMATION : String := "loop_2300"
def CLAIM_REFERRING_PROVIDER_NAME : String := "loop_2310a"
def CLAIM_RENDERING_PROVIDER_NAME : String := "loop_2310b"
def CLAIM_SERVICE_FACILITY_LOCATION_NAME : String := "loop_2310c"
def CLAIM_SUPERVISING_PROVIDER_NAME : String := "loop_2310d"
def CLAIM_AMBULANCE_PICKUP_LOCATION : String := "loop_2310e"
def CLAIM_AMBULANCE_DROPOFF_LOCATION : String := "loop_2310f"
def CLAIM_OTHER_SUBSCRIBER_INFORMATION : String := "loop_2320"
def CLAIM_OTHER_SUBSCRIBER_NAME : String := "loop_2330a"
def CLAIM_OTHER_SUBSCRIBER_OTHER_PAYER_NAME : String := "loop_2330b"
def CLAIM_OTHER_SUBSCRIBER_OTHER_PAYER_REFERRING_PROVIDER_NAME : String := "loop_2330c"
def CLAIM_OTHER_SUBSCRIBER_OTHER_PAYER_RENDERING_PROVIDER_NAME : String := "loop_2330d"
def CLAIM_OTHER_SUBSCRIBER_OTHER_PAYER_SERVICE_FACILITY_LOCATION : String := "loop_2330e"
def CLAIM_OTHER_SUBSCRIBER_OTHER_PAYER_SUPERVISING_PROVIDER_NAME : String := "loop_2330f"
def CLAIM_OTHER_SUBSCRIBER_OTHER_PAYER_BILLING_PROVIDER_NAME : String := "loop_2330g"
def CLAIM_SERVICE_LINE : String := "loop_2400"
def CLAIM_SERVICE_LINE_DRUG_IDENTIFICATION_NAME : String := "loop_2410"
def CLAIM_SERVICE_LINE_RENDERING_PROVIDER_NAME : String := "loop_2420a"
def CLAIM_SERVICE_LINE_PURCHASED_SERVICE_PROVIDER_NAME : String := "loop_2420b"
def CLAIM_SERVICE_LINE_SERVICE_FACILITY_LOCATION_NAME : String := "loop_2420c"
def CLAIM_SERVICE_LINE_SUPERVISING_PROVIDER_NAME : String := "loop_2420d"
def CLAIM_SERVICE_LINE_ORDERING_PROVIDER_NAME : String := "loop_2420e"
def CLAIM_SERVICE_LINE_REFERRING_PROVIDER_NAME : String := "loop_2420f"
def CLAIM_SERVICE_LINE_AMBULANCE_PICKUP_LOCATION : String := "loop_2420g"
def CLAIM_SERVICE_LINE_AMBULANCE_DROPOFF_LOCATION : String := "loop_2420h"
def CLAIM_SERVICE_LINE_LINE_ADJUDICATION_INFORMATION : String := "loop_2430"
def CLAIM_SERVICE_LINE_LINE_FORM_IDENTIFICATION : String := "loop_2440"
def FOOTER : String := "footer"

end TransactionLoops

/-- Every value of the TransactionLoops enum — the set of loop names a
cursor position can carry. -/
def transactionLoopNames : List String :=
  [TransactionLoops.HEADER, TransactionLoops.SUBMITTER_NAME, TransactionLoops.RECEIVER_NAME,
   TransactionLoops.BILLING_PROVIDER, TransactionLoops.BILLING_PROVIDER_NAME,
   TransactionLoops.BILLING_PROVIDER_PAY_TO_ADDRESS,
   TransactionLoops.BILLING_PROVIDER_PAY_TO_PLAN_NAME, TransactionLoops.SUBSCRIBER,
   TransactionLoops.SUBSCRIBER_NAME, TransactionLoops.SUBSCRIBER_PAYER_NAME,
   TransactionLoops.PATIENT_LOOP, TransactionLoops.PATIENT_LOOP_NAME,
   TransactionLoops.CLAIM_INFORMATION, TransactionLoops.CLAIM_REFERRING_PROVIDER_NAME,
   TransactionLoops.CLAIM_RENDERING_PROVIDER_NAME,
   TransactionLoops.CLAIM_SERVICE_FACILITY_LOCATION_NAME,
   TransactionLoops.CLAIM_SUPERVISING_PROVIDER_NAME,
   TransactionLoops.CLAIM_AMBULANCE_PICKUP_LOCATION,
   TransactionLoops.CLAIM_AMBULANCE_DROPOFF_LOCATION,
   TransactionLoops.CLAIM_OTHER_SUBSCRIBER_INFORMATION,
   TransactionLoops.CLAIM_OTHER_SUBSCRIBER_NAME,
   TransactionLoops.CLAIM_OTHER_SUBSCRIBER_OTHER_PAYER_NAME,
   TransactionLoops.CLAIM_OTHER_SUBSCRIBER_OTHER_PAYER_REFERRING_PROVIDER_NAME,
   TransactionLoops.CLAIM_OTHER_SUBSCRIBER_OTHER_PAYER_RENDERING_PROVIDER_NAME,
   TransactionLoops.CLAIM_OTHER_SUBSCRIBER_OTHER_PAYER_SERVICE_FACILITY_LOCATION,
   TransactionLoops.CLAIM_OTHER_SUBSCRIBER_OTHER_PAYER_SUPERVISING_PROVIDER_NAME,
   TransactionLoops.CLAIM_OTHER_SUBSCRIBER_OTHER_PAYER_BILLING_PROVIDER_NAME,
   TransactionLoops.CLAIM_SERVICE_LINE,
   TransactionLoops.CLAIM_SERVICE_LINE_DRUG_IDENTIFICATION_NAME,
   TransactionLoops.CLAIM_SERVICE_LINE_RENDERING_PROVIDER_NAME,
   TransactionLoops.CLAIM_SERVICE_LINE_PURCHASED_SERVICE_PROVIDER_NAME,
   TransactionLoops.CLAIM_SERVICE_LINE_SERVICE_FACILITY_LOCATION_NAME,
   TransactionLoops.CLAIM_SERVICE_LINE_SUPERVISING_PROVIDER_NAME,
   TransactionLoops.CLAIM_SERVICE_LINE_ORDERING_PROVIDER_NAME,
   TransactionLoops.CLAIM_SERVICE_LINE_REFERRING_PROVIDER_NAME,
   TransactionLoops.CLAIM_SERVICE_LINE_AMBULANCE_PICKUP_LOCATION,
   TransactionLoops.CLAIM_SERVICE_LINE_AMBULANCE_DROPOFF_LOCATION,
   TransactionLoops.CLAIM_SERVICE_LINE_LINE_ADJUDICATION_INFORMATION,
   TransactionLoops.CLAIM_SERVICE_LINE_LINE_FORM_IDENTIFICATION, TransactionLoops.FOOTER]

/-- The parser context used by the loop parsing functions.  The record
shortcuts subscriber_record and patient_record are references into
transaction_data, modelled as paths; hl_segment is the cached most
recent HL segment data (None before the first HL segment). -/
structure X12ParserContext where
  transaction_data : Val
  loop_name : String
  current_loop : JPath
  subscriber_record : JPath
  patient_record : JPath
  hl_segment : Option (List (String × Val))

/-- Modelled from the spec: X12ParserContext.set_loop_context lives in
linuxforhealth.x12.parsing, which is not under src/; per the spec the
cursor keeps the current loop id and a pointer to the current loop
node, both replaced when a loop is opened. -/
def set_loop_context (context : X12ParserContext) (loop_name : String)
    (loop_record : JPath) : X12ParserContext :=
  { context with loop_name := loop_name, current_loop := loop_record }

/-- parsing._get_billing_provider: the reference
transaction_data[BILLING_PROVIDER][-1]. -/
def _get_billing_provider (context : X12ParserContext) : Option JPath :=
  match objGet context.transaction_data TransactionLoops.BILLING_PROVIDER with
  | some (.vlist items) =>
    if items.isEmpty then none
    else some [.field TransactionLoops.BILLING_PROVIDER, .idx (items.length - 1)]
  | _ => none

/-- parsing._is_patient_a_dependent:
patient_record.get("hl_segment", \x7b\x7d).get("hierarchical_level_code") == "23".
A missing key defaults like Python dict.get; comparing a non-string
value (or None) to "23" is False. -/
def _is_patient_a_dependent (root : Val) (patient_record : JPath) : Option Bool :=
  match getPath root patient_record with
  | some (.obj entries) =>
    match (entries.lookup "hl_segment").getD (.obj []) with
    | .obj hl_entries =>
      match hl_entries.lookup "hierarchical_level_code" with
      | some (.str s) => some (s = "23")
      | some _ => some false
      | none => some false
    | _ => none
  | _ => none

/-- parsing._get_claim: the current claim reference; the patient claim
list is used when the patient is a dependent or the subscriber record
has no CLAIM_INFORMATION key, else the subscriber claim list. -/
def _get_claim (context : X12ParserContext) : Option JPath := do
  let dep ← _is_patient_a_dependent context.transaction_data context.patient_record
  let use_patient ←
    if dep then pure true
    else do
      let sub ← getPath context.transaction_data context.subscriber_record
      let has ← objHasKey sub TransactionLoops.CLAIM_INFORMATION
      pure (!has)
  let base := if use_patient then context.patient_record else context.subscriber_record
  lastElemPath context.transaction_data base TransactionLoops.CLAIM_INFORMATION

/-- parsing._get_service_line: claim[CLAIM_SERVICE_LINE][-1]. -/
def _get_service_line (context : X12ParserContext) : Option JPath := do
  let claim ← _get_claim context
  lastElemPath context.transaction_data claim TransactionLoops.CLAIM_SERVICE_LINE

/-- The test the source applies to the cached HL segment in
set_subscriber_loop: hl_segment.get("hierarchical_child_code", "0") == "0". -/
def hlChildCodeIsZero (hl : List (String × Val)) : Bool :=
  match hl.lookup "hierarchical_child_code" with
  | some (.str s) => s = "0"
  | some _ => false
  | none => true

/-- parsing.set_subscriber_loop (matched on HL with
hierarchical_level_code "22"): appends a fresh subscriber record to the
billing provider's SUBSCRIBER list, points subscriber_record at it,
opens the loop, and — when the cached HL record's
hierarchical_child_code defaults to or equals "0" — aliases
patient_record to the same subscriber record. -/
def set_subscriber_loop (context : X12ParserContext)
    (segment_data : List (String × Val)) : Option X12ParserContext := do
  let bp ← _get_billing_provider context
  let bpVal ← getPath context.transaction_data bp
  let hasSub ← objHasKey bpVal TransactionLoops.SUBSCRIBER
  let root1 ←
    if hasSub then some context.transaction_data
    else modifyAt context.transaction_data bp (setKey TransactionLoops.SUBSCRIBER (.vlist []))
  let root2 ← modifyAt root1 (bp ++ [.field TransactionLoops.SUBSCRIBER]) (appendItem (.obj []))
  let subPath ← lastElemPath root2 bp TransactionLoops.SUBSCRIBER
  let context1 := { context with transaction_data := root2, subscriber_record := subPath }
  let context2 := set_loop_context context1 TransactionLoops.SUBSCRIBER subPath
  let hl ← context.hl_segment
  if hlChildCodeIsZero hl then
    pure { context2 with patient_record := subPath }
  else
    pure context2

/-- The claim dict set_claim_loop appends, with its pre-created segment
lists. -/
def claimInitialData : Val :=
  .obj [("dtp_segment", .vlist []), ("pwk_segment", .vlist []), ("ref_segment", .vlist []),
        ("k3_segment", .vlist []), ("crc_segment", .vlist []), ("hi_segment", .vlist [])]

/-- parsing.set_claim_loop (matched on CLM): creates
patient_record[CLAIM_INFORMATION] if absent, appends a fresh claim
dict, and opens the claim loop on it. -/
def set_claim_loop (context : X12ParserContext)
    (segment_data : List (String × Val)) : Option X12ParserContext := do
  let patVal ← getPath context.transaction_data context.patient_record
  let hasClaim ← objHasKey patVal TransactionLoops.CLAIM_INFORMATION
  let root1 ←
    if hasClaim then some context.transaction_data
    else (modifyAt context.transaction_data context.patient_record
      (setKey TransactionLoops.CLAIM_INFORMATION (.vlist [])))
  let root2 ← (modifyAt root1 (context.patient_record ++ [.field TransactionLoops.CLAIM_INFORMATION])
    (appendItem claimInitialData))
  let claimPath ← lastElemPath root2 context.patient_record TransactionLoops.CLAIM_INFORMATION
  pure (set_loop_context { context with transaction_data := root2 }
    TransactionLoops.CLAIM_INFORMATION claimPath)

/-- parsing.set_subscriber_payer_name_loop (matched on NM1 with
entity_identifier_code "PR"): fires only when the current loop is
SUBSCRIBER_NAME ("loop_2010ba"); stores the payer name loop under the
subscriber record's SUBSCRIBER_PAYER_NAME ("loop_2010bb") key but — as
in the source — passes SUBSCRIBER_NAME to set_loop_context, so the
recorded loop name stays "loop_2010ba". -/
def set_subscriber_payer_name_loop (context : X12ParserContext)
    (segment_data : List (String × Val)) : Option X12ParserContext :=
  if context.loop_name = TransactionLoops.SUBSCRIBER_NAME then do
    let subVal ← getPath context.transaction_data context.subscriber_record
    let hasPayer ← objHasKey subVal TransactionLoops.SUBSCRIBER_PAYER_NAME
    let root1 ←
      if hasPayer then some context.transaction_data
      else (modifyAt context.transaction_data context.subscriber_record
        (setKey TransactionLoops.SUBSCRIBER_PAYER_NAME (.obj [("ref_segment", .vlist [])])))
    let payerPath := context.subscriber_record ++ [.field TransactionLoops.SUBSCRIBER_PAYER_NAME]
    let _ ← getPath root1 payerPath
    pure (set_loop_context { context with transaction_data := root1 }
      TransactionLoops.SUBSCRIBER_NAME payerPath)
  else
    pure context

/-- parsing.set_pay_to_address_name_loop (matched on NM1 with
entity_identifier_code "87"): fires when the current loop name contains
"loop_2010a"; the loop creation AND the set_loop_context call are both
inside the if-absent block, so an existing BILLING_PROVIDER_PAY_TO_ADDRESS
entry makes the handler a no-op. -/
def set_pay_to_address_name_loop (context : X12ParserContext)
    (segment_data : List (String × Val)) : Option X12ParserContext :=
  if containsSub context.loop_name "loop_2010a" then do
    let bp ← _get_billing_provider context
    let bpVal ← getPath context.transaction_data bp
    let hasPayTo ← objHasKey bpVal TransactionLoops.BILLING_PROVIDER_PAY_TO_ADDRESS
    if hasPayTo then
      pure context
    else do
      let root1 ← (modifyAt context.transaction_data bp
        (setKey TransactionLoops.BILLING_PROVIDER_PAY_TO_ADDRESS
          (.obj [("ref_segment", .vlist []), ("per_segment", .vlist [])])))
      let payToPath := bp ++ [.field TransactionLoops.BILLING_PROVIDER_PAY_TO_ADDRESS]
      let _ ← getPath root1 payToPath
      pure (set_loop_context { context with transaction_data := root1 }
        TransactionLoops.BILLING_PROVIDER_PAY_TO_ADDRESS payToPath)
  else
    pure context

/-- parsing.set_claim_entity_loop (matched on NM1 with
entity_identifier_code in DN, P3, 82, 77, DQ): fires when the current
loop name contains "loop_2300" or "loop_2310"; maps the identifier to a
2310 loop, creates it on the current claim if absent (the referring
provider loop also pre-creates nm1_segment), and moves the cursor to
it.  The raised ValueError for an unmapped identifier is none. -/
def set_claim_entity_loop (context : X12ParserContext)
    (segment_data : List (String × Val)) : Option X12ParserContext :=
  if containsSub context.loop_name "loop_2300" || containsSub context.loop_name "loop_2310" then do
    let loopName ←
      match segment_data.lookup "entity_identifier_code" with
      | some (.str s) =>
        if s = "DN" ∨ s = "P3" then some TransactionLoops.CLAIM_REFERRING_PROVIDER_NAME
        else if s = "82" then some TransactionLoops.CLAIM_RENDERING_PROVIDER_NAME
        else if s = "77" then some TransactionLoops.CLAIM_SERVICE_FACILITY_LOCATION_NAME
        else if s = "DQ" then some TransactionLoops.CLAIM_SUPERVISING_PROVIDER_NAME
        else none
      | _ => none
    let claim ← _get_claim context
    let claimVal ← getPath context.transaction_data claim
    let hasLoop ← objHasKey claimVal loopName
    let root1 ←
      if hasLoop then some context.transaction_data
      else if loopName ≠ TransactionLoops.CLAIM_REFERRING_PROVIDER_NAME then
        (modifyAt context.transaction_data claim
          (setKey loopName (.obj [("ref_segment", .vlist [])])))
      else
        (modifyAt context.transaction_data claim
          (setKey loopName (.obj [("nm1_segment", .vlist []), ("ref_segment", .vlist [])])))
    let loopPath := claim ++ [.field loopName]
    let _ ← getPath root1 loopPath
    pure (set_loop_context { context with transaction_data := root1 } loopName loopPath)
  else
    pure context

/-- parsing.set_service_line_entities_loop (matched on NM1 with
entity_identifier_code in 82, QB, 77, DQ, DK, DN, P3): fires when the
current loop name contains "loop_24"; maps the identifier to a 2420
loop, unconditionally re-creates it on the current service line, and
moves the cursor to it. -/
def set_service_line_entities_loop (context : X12ParserContext)
    (segment_data : List (String × Val)) : Option X12ParserContext :=
  if containsSub context.loop_name "loop_24" then do
    let loopName ←
      match segment_data.lookup "entity_identifier_code" with
      | some (.str s) =>
        if s = "82" then some TransactionLoops.CLAIM_SERVICE_LINE_RENDERING_PROVIDER_NAME
        else if s = "QB" then some TransactionLoops.CLAIM_SERVICE_LINE_PURCHASED_SERVICE_PROVIDER_NAME
        else if s = "77" then some TransactionLoops.CLAIM_SERVICE_LINE_SERVICE_FACILITY_LOCATION_NAME
        else if s = "DQ" then some TransactionLoops.CLAIM_SERVICE_LINE_SUPERVISING_PROVIDER_NAME
        else if s = "DK" then some TransactionLoops.CLAIM_SERVICE_LINE_ORDERING_PROVIDER_NAME
        else if s = "DN" ∨ s = "P3" then some TransactionLoops.CLAIM_SERVICE_LINE_REFERRING_PROVIDER_NAME
        else none
      | _ => none
    let service_line ← _get_service_line context
    let root1 ← (modifyAt context.transaction_data service_line
      (setKey loopName (.obj [("ref_segment", .vlist [])])))
    let loopPath := service_line ++ [.field loopName]
    let _ ← getPath root1 loopPath
    pure (set_loop_context { context with transaction_data := root1 } loopName loopPath)
  else
    pure context

/-- Python truthiness of a string constant: non-empty strings are
truthy. -/
def pyTruthy (s : String) : Bool := s ≠ ""

/-- parsing.set_service_line_adjudication_loop (matched on SVD).  The
source guards the list initialization with
"if TransactionLoops.CLAIM_SERVICE_LINE_LINE_ADJUDICATION_INFORMATION:",
a truthy string constant, so the guard always succeeds and the 2430
list is reset to [] on every SVD segment before the new entry is
appended. -/
def set_service_line_adjudication_loop (context : X12ParserContext)
    (segment_data : List (String × Val)) : Option X12ParserContext := do
  let service_line ← _get_service_line context
  let root1 ←
    if pyTruthy TransactionLoops.CLAIM_SERVICE_LINE_LINE_ADJUDICATION_INFORMATION then
      (modifyAt context.transaction_data service_line
        (setKey TransactionLoops.CLAIM_SERVICE_LINE_LINE_ADJUDICATION_INFORMATION (.vlist [])))
    else
      some context.transaction_data
  let root2 ← (modifyAt root1
    (service_line ++ [.field TransactionLoops.CLAIM_SERVICE_LINE_LINE_ADJUDICATION_INFORMATION])
    (appendItem (.obj [("cas_segment", .vlist [])])))
  let adjPath ← lastElemPath root2 service_line
    TransactionLoops.CLAIM_SERVICE_LINE_LINE_ADJUDICATION_INFORMATION
  pure (set_loop_context { context with transaction_data := root2 }
    TransactionLoops.CLAIM_SERVICE_LINE_LINE_ADJUDICATION_INFORMATION adjPath)

/-!
Concrete transaction states used to evaluate the handlers.
-/

/-- Path of the first subscriber record of the first billing provider. -/
def subP : JPath := [.field "loop_2000a", .idx 0, .field "loop_2000b", .idx 0]

/-- Path of the first claim of that subscriber. -/
def claimP : JPath := subP ++ [.field TransactionLoops.CLAIM_INFORMATION, .idx 0]

/-- Path of the first service line of that claim. -/
def slP : JPath := claimP ++ [.field TransactionLoops.CLAIM_SERVICE_LINE, .idx 0]

/-- A transaction tree with one billing provider, one subscriber, one
claim and one (empty) service line. -/
def rootWithServiceLine : Val :=
  .obj [("loop_2000a", .vlist [.obj [("loop_2000b", .vlist
    [.obj [("loop_2300", .vlist [.obj [("loop_2400", .vlist [.obj []])]])]])]])]

/-- Context positioned on the service line of rootWithServiceLine (the
subscriber is the patient). -/
def ctxOnServiceLine : X12ParserContext :=
  { transaction_data := rootWithServiceLine, loop_name := TransactionLoops.CLAIM_SERVICE_LINE,
    current_loop := slP, subscriber_record := subP, patient_record := subP,
    hl_segment := some [] }

/-- Length of the service line's loop_2430 list after two consecutive
SVD segments are handled from ctxOnServiceLine. -/
def loop2430LengthAfterTwoSvd : Option Nat :=
  match set_service_line_adjudication_loop ctxOnServiceLine [] with
  | some c1 =>
    match set_service_line_adjudication_loop c1 [] with
    | some c2 =>
      match getPath c2.transaction_data
        (slP ++ [.field TransactionLoops.CLAIM_SERVICE_LINE_LINE_ADJUDICATION_INFORMATION]) with
      | some (.vlist items) => some items.length
      | _ => none
    | none => none
  | none => none

/-- Claim C1: evaluation of the code at the failing input.  Handling
two consecutive SVD segments for the same service line leaves loop_2430
with a single entry — the truthy-constant guard resets the list on
every SVD — contradicting the claimed accumulation to n entries. -/
theorem svd_segments_do_not_accumulate :
    loop2430LengthAfterTwoSvd = some 1 ∧ loop2430LengthAfterTwoSvd ≠ some 2 := by
  exact ⟨rfl, by decide⟩

/-- A transaction tree whose subscriber already holds a loop_2010ba
(subscriber name) loop and no loop_2010bb. -/
def rootWithSubscriberName : Val :=
  .obj [("loop_2000a", .vlist [.obj [("loop_2000b", .vlist
    [.obj [("loop_2010ba", .obj [("ref_segment", .vlist [])])]])]])]

/-- Context positioned on the subscriber name loop 2010BA. -/
def ctxOnSubscriberName : X12ParserContext :=
  { transaction_data := rootWithSubscriberName, loop_name := TransactionLoops.SUBSCRIBER_NAME,
    current_loop := subP ++ [.field TransactionLoops.SUBSCRIBER_NAME],
    subscriber_record := subP, patient_record := subP, hl_segment := some [] }

/-- The context set_subscriber_payer_name_loop produces from
ctxOnSubscriberName: payer data stored under loop_2010bb, cursor moved
to it, but loop name still the SUBSCRIBER_NAME label. -/
def ctxAfterPayerName : X12ParserContext :=
  { transaction_data := .obj [("loop_2000a", .vlist [.obj [("loop_2000b", .vlist
      [.obj [("loop_2010ba", .obj [("ref_segment", .vlist [])]),
             ("loop_2010bb", .obj [("ref_segment", .vlist [])])]])]])],
    loop_name := TransactionLoops.SUBSCRIBER_NAME,
    current_loop := subP ++ [.field TransactionLoops.SUBSCRIBER_PAYER_NAME],
    subscriber_record := subP, patient_record := subP, hl_segment := some [] }

/-- Claim C4: evaluation of the code at the failing input.  On NM1*PR
in loop_2010ba the handler stores the payer-name loop under the
subscriber's loop_2010bb key and moves the cursor there, but records
the loop name "loop_2010ba" (SUBSCRIBER_NAME), not the claimed
"loop_2010bb" (SUBSCRIBER_PAYER_NAME). -/
theorem subscriber_payer_name_label_mismatch :
    set_subscriber_payer_name_loop ctxOnSubscriberName
      [("entity_identifier_code", .str "PR")] = some ctxAfterPayerName
    ∧ getPath ctxAfterPayerName.transaction_data
        (subP ++ [.field TransactionLoops.SUBSCRIBER_PAYER_NAME])
        = some (.obj [("ref_segment", .vlist [])])
    ∧ ctxAfterPayerName.current_loop = subP ++ [.field TransactionLoops.SUBSCRIBER_PAYER_NAME]
    ∧ ctxAfterPayerName.loop_name = TransactionLoops.SUBSCRIBER_NAME
    ∧ ctxAfterPayerName.loop_name ≠ TransactionLoops.SUBSCRIBER_PAYER_NAME := by
  exact ⟨rfl, rfl, rfl, rfl, by decide⟩

/-- Claim C10: when the current loop name contains "loop_2010a" and the
billing provider record already holds a loop_2010ab entry,
set_pay_to_address_name_loop returns the context unchanged: no record
is replaced and the cursor does not move. -/
theorem pay_to_address_existing_loop_noop :
    ∀ (context : X12ParserContext) (segment_data : List (String × Val))
      (bp : JPath) (bpVal : Val),
      containsSub context.loop_name "loop_2010a" = true →
      _get_billing_provider context = some bp →
      getPath context.transaction_data bp = some bpVal →
      objHasKey bpVal TransactionLoops.BILLING_PROVIDER_PAY_TO_ADDRESS = some true →
      set_pay_to_address_name_loop context segment_data = some context := by
  intro context segment_data bp bpVal hguard hbp hbpVal hhas
  simp [set_pay_to_address_name_loop, hguard, hbp, hbpVal, hhas]

/-- A transaction tree whose billing provider already holds a
loop_2010ab pay-to-address loop. -/
def rootWithPayToAddress : Val :=
  .obj [("loop_2000a", .vlist [.obj [("loop_2010ab",
    .obj [("ref_segment", .vlist []), ("per_segment", .vlist [])])]])]

/-- Context positioned on the billing provider name loop 2010AA of
rootWithPayToAddress. -/
def ctxOnBillingProviderName : X12ParserContext :=
  { transaction_data := rootWithPayToAddress,
    loop_name := TransactionLoops.BILLING_PROVIDER_NAME,
    current_loop := [.field "loop_2000a", .idx 0, .field "loop_2010aa"],
    subscriber_record := [], patient_record := [], hl_segment := none }

/-- Witness for C10 at a concrete context with an existing
loop_2010ab. -/
theorem pay_to_address_existing_loop_noop_witness :
    set_pay_to_address_name_loop ctxOnBillingProviderName
      [("entity_identifier_code", .str "87")] = some ctxOnBillingProviderName :=
  pay_to_address_existing_loop_noop ctxOnBillingProviderName
    [("entity_identifier_code", .str "87")]
    [.field "loop_2000a", .idx 0]
    (.obj [("loop_2010ab", .obj [("ref_segment", .vlist []), ("per_segment", .vlist [])])])
    (by decide) rfl rfl rfl

/-- Computation rule for lastElemPath on a non-empty list. -/
theorem lastElemPath_eq (root : Val) (p : JPath) (k : String) (items : List Val)
    (h : getPath root (p ++ [.field k]) = some (.vlist items)) (hne : items ≠ []) :
    lastElemPath root p k = some (p ++ [.field k, .idx (items.length - 1)]) := by
  have hf : items.isEmpty = false := by
    cases items with
    | nil => exact absurd rfl hne
    | cons a t => rfl
  unfold lastElemPath
  rw [h]
  show (if items.isEmpty = true then none
        else some (p ++ [.field k, .idx (items.length - 1)]))
    = some (p ++ [.field k, .idx (items.length - 1)])
  simp [hf]

/-- Claim C2: after set_subscriber_loop handles an HL 22 whose cached
HL record has hierarchical_child_code "0" or none, the patient shortcut
aliases the subscriber record (same reference), and set_claim_loop on a
context whose patient shortcut aliases the subscriber record appends
its fresh claim dict to the subscriber record's loop_2300 list and
moves the cursor to it. -/
theorem subscriber_is_patient_claim_attachment :
    (∀ (context : X12ParserContext) (segment_data : List (String × Val))
       (context1 : X12ParserContext),
       set_subscriber_loop context segment_data = some context1 →
       (∀ hl, context.hl_segment = some hl → hlChildCodeIsZero hl = true) →
       context1.patient_record = context1.subscriber_record)
    ∧ (∀ (context : X12ParserContext) (segment_data : List (String × Val))
        (context2 : X12ParserContext),
        context.patient_record = context.subscriber_record →
        set_claim_loop context segment_data = some context2 →
        ∃ items : List Val,
          getPath context2.transaction_data
              (context.subscriber_record ++ [.field TransactionLoops.CLAIM_INFORMATION])
            = some (.vlist (items ++ [claimInitialData]))
          ∧ (getPath context.transaction_data
                (context.subscriber_record ++ [.field TransactionLoops.CLAIM_INFORMATION])
              = some (.vlist items) ∨ items = [])
          ∧ context2.current_loop
              = context.subscriber_record ++ [.field TransactionLoops.CLAIM_INFORMATION,
                                              .idx items.length]
          ∧ context2.loop_name = TransactionLoops.CLAIM_INFORMATION) := by
  constructor
  · intro context segment_data context1 h hchild
    simp only [set_subscriber_loop, Option.bind_eq_bind, Option.bind_eq_some] at h
    obtain ⟨bp, hbp, h⟩ := h
    obtain ⟨bpVal, hbpVal, h⟩ := h
    obtain ⟨hasSub, hhas, h⟩ := h
    cases hasSub with
    | true =>
      simp only [if_true, Option.some_bind, Option.bind_eq_some] at h
      obtain ⟨root2, hroot2, subPath, hsub, hl, hhl, h⟩ := h
      rw [if_pos (hchild hl hhl)] at h
      simp only [Option.pure_def, Option.some.injEq] at h
      subst h
      rfl
    | false =>
      simp only [Bool.false_eq_true, if_false, Option.bind_eq_some] at h
      obtain ⟨root1, hroot1, root2, hroot2, subPath, hsub, hl, hhl, h⟩ := h
      rw [if_pos (hchild hl hhl)] at h
      simp only [Option.pure_def, Option.some.injEq] at h
      subst h
      rfl
  · intro context segment_data context2 hps h
    rw [← hps]
    simp only [set_claim_loop, Option.bind_eq_bind, Option.bind_eq_some] at h
    obtain ⟨patVal, hpat, h⟩ := h
    obtain ⟨hasClaim, hhas, h⟩ := h
    cases hasClaim with
    | true =>
      simp only [if_true, Option.some_bind, Option.bind_eq_some] at h
      obtain ⟨root2, hroot2, h⟩ := h
      obtain ⟨claimPath, hcp, hctx⟩ := h
      simp only [Option.pure_def, Option.some.injEq] at hctx
      obtain ⟨v, w, hv, hw, hv'⟩ := modifyAt_spec _ _ _ _ hroot2
      cases v with
      | str s => simp [appendItem] at hw
      | obj e => simp [appendItem] at hw
      | vlist items =>
        simp only [appendItem, Option.some.injEq] at hw
        subst hw
        refine ⟨items, ?_, Or.inl hv, ?_, ?_⟩
        · rw [← hctx]
          exact hv'
        · rw [← hctx]
          simp only [set_loop_context]
          rw [lastElemPath_eq _ _ _ _ hv' (by simp)] at hcp
          simp only [Option.some.injEq] at hcp
          rw [← hcp]
          simp
        · rw [← hctx]
          rfl
    | false =>
      simp only [Bool.false_eq_true, if_false, Option.bind_eq_some] at h
      obtain ⟨root1, hroot1, h⟩ := h
      obtain ⟨root2, hroot2, h⟩ := h
      obtain ⟨claimPath, hcp, hctx⟩ := h
      simp only [Option.pure_def, Option.some.injEq] at hctx
      obtain ⟨v, w, hv, hw, hv'⟩ := modifyAt_spec _ _ _ _ hroot2
      cases v with
      | str s => simp [appendItem] at hw
      | obj e => simp [appendItem] at hw
      | vlist items =>
        simp only [appendItem, Option.some.injEq] at hw
        subst hw
        have hitems : items = [] := by
          obtain ⟨v0, w0, hv0, hw0, hv0'⟩ := modifyAt_spec _ _ _ _ hroot1
          cases v0 with
          | str s => simp [setKey] at hw0
          | vlist l => simp [setKey] at hw0
          | obj e0 =>
            simp only [setKey, Option.some.injEq] at hw0
            subst hw0
            rw [getPath_append] at hv
            rw [hv0'] at hv
            simp only [Option.some_bind, getPath, objGet, lookup_dictSet] at hv
            simp only [Option.some.injEq, Val.vlist.injEq] at hv
            exact hv.symm
        refine ⟨items, ?_, Or.inr hitems, ?_, ?_⟩
        · rw [← hctx]
          exact hv'
        · rw [← hctx]
          simp only [set_loop_context]
          rw [lastElemPath_eq _ _ _ _ hv' (by simp)] at hcp
          simp only [Option.some.injEq] at hcp
          rw [← hcp]
          simp
        · rw [← hctx]
          rfl

/-- A transaction tree with one billing provider record and nothing
below it. -/
def rootBareBillingProvider : Val := .obj [("loop_2000a", .vlist [.obj []])]

/-- Context positioned on the bare billing provider, with a cached HL
record that has no hierarchical_child_code. -/
def ctxOnBillingProvider : X12ParserContext :=
  { transaction_data := rootBareBillingProvider, loop_name := TransactionLoops.BILLING_PROVIDER,
    current_loop := [.field "loop_2000a", .idx 0],
    subscriber_record := [.field "loop_2000a", .idx 0],
    patient_record := [.field "loop_2000a", .idx 0], hl_segment := some [] }

/-- The context set_subscriber_loop produces from ctxOnBillingProvider. -/
def ctxAfterSubscriberOpen : X12ParserContext :=
  { transaction_data := .obj [("loop_2000a", .vlist [.obj [("loop_2000b", .vlist [.obj []])]])],
    loop_name := TransactionLoops.SUBSCRIBER, current_loop := subP,
    subscriber_record := subP, patient_record := subP, hl_segment := some [] }

/-- The context set_claim_loop produces from ctxAfterSubscriberOpen. -/
def ctxAfterClaimOpen : X12ParserContext :=
  { transaction_data := .obj [("loop_2000a", .vlist [.obj [("loop_2000b", .vlist
      [.obj [("loop_2300", .vlist [claimInitialData])]])]])],
    loop_name := TransactionLoops.CLAIM_INFORMATION, current_loop := claimP,
    subscriber_record := subP, patient_record := subP, hl_segment := some [] }

/-- Witness for C2 at a concrete HL 22 / CLM sequence. -/
theorem subscriber_is_patient_claim_attachment_witness :
    ctxAfterSubscriberOpen.patient_record = ctxAfterSubscriberOpen.subscriber_record
    ∧ ∃ items : List Val,
        getPath ctxAfterClaimOpen.transaction_data
            (ctxAfterSubscriberOpen.subscriber_record
              ++ [.field TransactionLoops.CLAIM_INFORMATION])
          = some (.vlist (items ++ [claimInitialData]))
        ∧ (getPath ctxAfterSubscriberOpen.transaction_data
              (ctxAfterSubscriberOpen.subscriber_record
                ++ [.field TransactionLoops.CLAIM_INFORMATION])
            = some (.vlist items) ∨ items = [])
        ∧ ctxAfterClaimOpen.current_loop
            = ctxAfterSubscriberOpen.subscriber_record
              ++ [.field TransactionLoops.CLAIM_INFORMATION, .idx items.length]
        ∧ ctxAfterClaimOpen.loop_name = TransactionLoops.CLAIM_INFORMATION :=
  ⟨subscriber_is_patient_claim_attachment.1 ctxOnBillingProvider [] ctxAfterSubscriberOpen rfl
      (by intro hl h; injection h with h2; rw [← h2]; rfl),
   subscriber_is_patient_claim_attachment.2 ctxAfterSubscriberOpen [] ctxAfterClaimOpen rfl rfl⟩

/-- An NM1 segment with entity_identifier_code DN. -/
def segDN : List (String × Val) := [("entity_identifier_code", .str "DN")]

/-- Claim C3: an NM1 with entity_identifier_code "DN" opens the claim
referring provider loop 2310A on the current claim when the cursor's
loop name contains "loop_2300" or "loop_2310", opens the service line
referring provider loop 2420F on the current service line when it
contains "loop_24", and no transaction loop name satisfies both
guards. -/
theorem nm1_dn_qualifier_prefix_disambiguation :
    (∀ (context : X12ParserContext) (segment_data : List (String × Val))
       (context' : X12ParserContext),
       segment_data.lookup "entity_identifier_code" = some (.str "DN") →
       (containsSub context.loop_name "loop_2300"
         || containsSub context.loop_name "loop_2310") = true →
       set_claim_entity_loop context segment_data = some context' →
       context'.loop_name = TransactionLoops.CLAIM_REFERRING_PROVIDER_NAME
       ∧ ∃ claim, _get_claim context = some claim
           ∧ context'.current_loop
               = claim ++ [.field TransactionLoops.CLAIM_REFERRING_PROVIDER_NAME]
           ∧ ∃ v, getPath context'.transaction_data context'.current_loop = some v)
    ∧ (∀ (context : X12ParserContext) (segment_data : List (String × Val))
        (context' : X12ParserContext),
        segment_data.lookup "entity_identifier_code" = some (.str "DN") →
        containsSub context.loop_name "loop_24" = true →
        set_service_line_entities_loop context segment_data = some context' →
        context'.loop_name = TransactionLoops.CLAIM_SERVICE_LINE_REFERRING_PROVIDER_NAME
        ∧ ∃ sl, _get_service_line context = some sl
            ∧ context'.current_loop
                = sl ++ [.field TransactionLoops.CLAIM_SERVICE_LINE_REFERRING_PROVIDER_NAME]
            ∧ ∃ v, getPath context'.transaction_data context'.current_loop = some v)
    ∧ (∀ name ∈ transactionLoopNames,
        ¬((containsSub name "loop_2300" || containsSub name "loop_2310") = true
          ∧ containsSub name "loop_24" = true)) := by
  refine ⟨?_, ?_, by decide⟩
  · intro context segment_data context' hid hguard h
    simp only [set_claim_entity_loop, hguard, if_true, hid, Option.bind_eq_bind,
      Option.some_bind, Option.bind_eq_some] at h
    rw [if_pos (Or.inl trivial)] at h
    simp only [Option.some_bind, Option.bind_eq_some] at h
    obtain ⟨claim, hclaim, claimVal, hcv, hasLoop, hhl2, h⟩ := h
    cases hasLoop with
    | true =>
      simp only [if_true, Option.some_bind, Option.bind_eq_some, Option.pure_def,
        Option.some.injEq] at h
      obtain ⟨lv, hlv, hctx⟩ := h
      subst hctx
      exact ⟨rfl, claim, hclaim, rfl, lv, hlv⟩
    | false =>
      simp only [Bool.false_eq_true, if_false] at h
      rw [if_neg (by decide)] at h
      simp only [Option.bind_eq_some, Option.pure_def, Option.some.injEq] at h
      obtain ⟨root1, hroot1, lv, hlv, hctx⟩ := h
      subst hctx
      exact ⟨rfl, claim, hclaim, rfl, lv, hlv⟩
  · intro context segment_data context' hid hguard h
    simp only [set_service_line_entities_loop, hguard, if_true, hid, Option.bind_eq_bind,
      Option.some_bind, Option.bind_eq_some] at h
    rw [if_neg (by decide), if_neg (by decide), if_neg (by decide), if_neg (by decide),
      if_neg (by decide), if_pos (Or.inl trivial)] at h
    simp only [Option.some_bind, Option.bind_eq_some, Option.pure_def,
      Option.some.injEq] at h
    obtain ⟨sl, hsl, root1, hroot1, lv, hlv, hctx⟩ := h
    subst hctx
    exact ⟨rfl, sl, hsl, rfl, lv, hlv⟩

/-- Context positioned on the claim loop 2300 of rootWithServiceLine. -/
def ctxOnClaim : X12ParserContext :=
  { transaction_data := rootWithServiceLine, loop_name := TransactionLoops.CLAIM_INFORMATION,
    current_loop := claimP, subscriber_record := subP, patient_record := subP,
    hl_segment := some [] }

/-- The context set_claim_entity_loop produces from ctxOnClaim on
NM1*DN. -/
def ctxAfterDnOnClaim : X12ParserContext :=
  { transaction_data := .obj [("loop_2000a", .vlist [.obj [("loop_2000b", .vlist
      [.obj [("loop_2300", .vlist [.obj [("loop_2400", .vlist [.obj []]),
        ("loop_2310a", .obj [("nm1_segment", .vlist []), ("ref_segment", .vlist [])])]])]])]])],
    loop_name := TransactionLoops.CLAIM_REFERRING_PROVIDER_NAME,
    current_loop := claimP ++ [.field TransactionLoops.CLAIM_REFERRING_PROVIDER_NAME],
    subscriber_record := subP, patient_record := subP, hl_segment := some [] }

/-- The context set_service_line_entities_loop produces from
ctxOnServiceLine on NM1*DN. -/
def ctxAfterDnOnServiceLine : X12ParserContext :=
  { transaction_data := .obj [("loop_2000a", .vlist [.obj [("loop_2000b", .vlist
      [.obj [("loop_2300", .vlist [.obj [("loop_2400", .vlist
        [.obj [("loop_2420f", .obj [("ref_segment", .vlist [])])]])]])]])]])],
    loop_name := TransactionLoops.CLAIM_SERVICE_LINE_REFERRING_PROVIDER_NAME,
    current_loop := slP ++ [.field TransactionLoops.CLAIM_SERVICE_LINE_REFERRING_PROVIDER_NAME],
    subscriber_record := subP, patient_record := subP, hl_segment := some [] }

/-- Witness for C3: the same NM1*DN data handled once from loop_2300
and once from loop_2400, plus the guard disjointness at the concrete
name "loop_2300". -/
theorem nm1_dn_qualifier_prefix_disambiguation_witness :
    (ctxAfterDnOnClaim.loop_name = TransactionLoops.CLAIM_REFERRING_PROVIDER_NAME
     ∧ ∃ claim, _get_claim ctxOnClaim = some claim
         ∧ ctxAfterDnOnClaim.current_loop
             = claim ++ [.field TransactionLoops.CLAIM_REFERRING_PROVIDER_NAME]
         ∧ ∃ v, getPath ctxAfterDnOnClaim.transaction_data ctxAfterDnOnClaim.current_loop
             = some v)
    ∧ (ctxAfterDnOnServiceLine.loop_name
         = TransactionLoops.CLAIM_SERVICE_LINE_REFERRING_PROVIDER_NAME
       ∧ ∃ sl, _get_service_line ctxOnServiceLine = some sl
           ∧ ctxAfterDnOnServiceLine.current_loop
               = sl ++ [.field TransactionLoops.CLAIM_SERVICE_LINE_REFERRING_PROVIDER_NAME]
           ∧ ∃ v, getPath ctxAfterDnOnServiceLine.transaction_data
               ctxAfterDnOnServiceLine.current_loop = some v)
    ∧ ¬((containsSub TransactionLoops.CLAIM_INFORMATION "loop_2300"
          || containsSub TransactionLoops.CLAIM_INFORMATION "loop_2310") = true
        ∧ containsSub TransactionLoops.CLAIM_INFORMATION "loop_24" = true) :=
  ⟨nm1_dn_qualifier_prefix_disambiguation.1 ctxOnClaim segDN ctxAfterDnOnClaim rfl
      (by decide) rfl,
   nm1_dn_qualifier_prefix_disambiguation.2.1 ctxOnServiceLine segDN ctxAfterDnOnServiceLine
      rfl (by decide) rfl,
   nm1_dn_qualifier_prefix_disambiguation.2.2 TransactionLoops.CLAIM_INFORMATION (by decide)⟩

end LFHX12
